import Mathlib

/-!
Verification of the AstroPulse space-weather risk-scoring engine.

Shallow embedding of the scoring pipeline:
  * `app/ml/solar_flare_predictor.py`  (flare scorer, geomagnetic scorer, CME arrival)
  * `app/ml/radiation_predictor.py`    (radiation storm scorer)
  * `app/services/prediction_service.py` (aggregator / comprehensive predictions)
  * `app/api/routes/alerts.py`         (severity classifiers, alert synthesizer)

Python floats are modelled as exact rationals (ℚ); every constant involved in
the claims is decimal and the comparisons sit far from any representation
error. Python dicts with fixed key sets are modelled as structures; a field
read with a `.get(key, default)` is folded into the field's type. A Python
exception is modelled as `Except.error` / `Option.none`.
-/

namespace AstroPulse

/-- Python's builtin `round(x, ndigits)` on exact rationals. Python rounds
half-to-even on binary floats; every value rounded in this development is
either already exact at the target precision or away from a tie, where the
floor-based rule below agrees with Python's result. -/
def pyRound (ndigits : Nat) (q : ℚ) : ℚ :=
  (⌊q * 10 ^ ndigits + 1 / 2⌋ : ℚ) / 10 ^ ndigits

/-- Last `n` elements of a list: Python slice `l[-n:]`. -/
def lastN {α : Type} (n : Nat) (l : List α) : List α :=
  l.drop (l.length - n)

/-- `np.mean` of a rational list, 0 on empty (the source guards emptiness). -/
def listMean (l : List ℚ) : ℚ :=
  if l.isEmpty then 0 else l.sum / l.length

/-- Substring containment, Python's `needle in hay`. -/
def strContains (hay needle : String) : Bool :=
  decide (needle.toList <:+: hay.toList)

/-- Python's `s.startswith(p)`, on character lists. -/
def strStartsWith (s p : String) : Bool :=
  p.toList.isPrefixOf s.toList

/-! ## Event records -/

/-- A DONKI flare record as consumed by the scorers: only `classType` is read
(`flare.get("classType", "")`, so a missing field is the empty string). -/
structure Flare where
  classType : String
deriving DecidableEq, Repr

/-- A DONKI CME record as consumed by the prediction service and alert route:
`cme.get("speed")` (`none` models a missing/None field, the numeric value is
the result of `float(...)`), `cme.get("startTime", "")`, `cme.get("activityID")`. -/
structure CMEEvent where
  activityID : String
  speed : Option ℚ
  startTime : String
deriving DecidableEq, Repr

/-- A Kp-index series entry `[timestamp, kp, ...]`: the timestamp heads the
row, `values` are the numeric entries after it. The source reads
`float(kp[1]) if len(kp) > 1 else 0`, i.e. the head of `values` with 0 default. -/
structure KpEntry where
  timestamp : String
  values : List ℚ
deriving DecidableEq, Repr

/-- `float(kp[1]) if len(kp) > 1 else 0` from `predict_geomagnetic_storm`. -/
def kpEntryValue (kp : KpEntry) : ℚ :=
  match kp.values with
  | [] => 0
  | v :: _ => v

/-! ## Flare risk scorer (`SolarFlarePredictor.predict_flare_probability`) -/

/-- `class_type[0].upper()` guarded by `if class_type:` — `none` on empty.
Python's `str.upper` is Unicode-aware; the flare classes are ASCII, where
`Char.toUpper` agrees. -/
def firstCharUpper (s : String) : Option Char :=
  match s.toList with
  | [] => none
  | c :: _ => some c.toUpper

/-- Number of flares whose first class character uppercases to `c`
(the `flare_counts` tally loop of `_calculate_activity_score`). -/
def flareCount (recent_flares : List Flare) (c : Char) : Nat :=
  (recent_flares.filter (fun f => firstCharUpper f.classType = some c)).length

/-- `SolarFlarePredictor._calculate_activity_score`. -/
def _calculate_activity_score (recent_flares : List Flare) : ℚ :=
  if recent_flares.isEmpty then 0.2
  else
    let x := flareCount recent_flares 'X'
    let m := flareCount recent_flares 'M'
    let c := flareCount recent_flares 'C'
    let score : ℚ := ((x : ℚ) * 0.9 + (m : ℚ) * 0.6 + (c : ℚ) * 0.3) / 10
    min (score + 0.2) 0.9

/-- `SolarFlarePredictor._analyze_solar_wind`; the source's
`if not solar_wind_data or len(solar_wind_data) < 5` collapses to a length
test. Only the length of the series is ever read, so the point type is free. -/
def _analyze_solar_wind {α : Type} (solar_wind_data : List α) : ℚ :=
  if solar_wind_data.length < 5 then 0.5
  else
    let data_quality : ℚ := (solar_wind_data.length : ℚ) / 100
    min (0.3 + data_quality * 0.4) 0.8

/-- `SolarFlarePredictor._analyze_xray_flux`. -/
def _analyze_xray_flux {α : Type} (xray_flux : List α) : ℚ :=
  if xray_flux.length < 5 then 0.5
  else
    let recent_values := if xray_flux.length ≥ 10 then lastN 10 xray_flux else xray_flux
    let trend_score : ℚ := 0.5 + (recent_values.length : ℚ) / 100
    min trend_score 0.8

/-- `SolarFlarePredictor._calculate_risk_level`. -/
def _calculate_risk_level (score : ℚ) : String :=
  if score ≥ 0.7 then "HIGH"
  else if score ≥ 0.5 then "MODERATE"
  else if score ≥ 0.3 then "LOW"
  else "MINIMAL"

/-- `SolarFlarePredictor._generate_recommendations`. -/
def _generate_recommendations (score : ℚ) : List String :=
  if score ≥ 0.7 then
    ["Satellite operators should prepare for possible disruptions",
     "Monitor communication systems closely",
     "GPS accuracy may be affected",
     "Power grid operators should be on alert",
     "Consider postponing sensitive space operations"]
  else if score ≥ 0.5 then
    ["Maintain awareness of space weather conditions",
     "Monitor alerts for any rapid changes",
     "Satellite operators should review contingency plans",
     "Aviation routes over polar regions may be affected"]
  else if score ≥ 0.3 then
    ["Normal operations expected",
     "Continue routine space weather monitoring",
     "Low risk of significant impacts"]
  else
    ["Minimal solar activity expected",
     "Excellent conditions for space operations",
     "Low probability of disturbances"]

/-- The weighted blend `base_score` of `predict_flare_probability`
(lines 37–41 of `solar_flare_predictor.py`). -/
def base_score {α β : Type} (recent_flares : List Flare)
    (solar_wind_data : List α) (xray_flux : List β) : ℚ :=
  _calculate_activity_score recent_flares * 0.5 +
  _analyze_solar_wind solar_wind_data * 0.3 +
  _analyze_xray_flux xray_flux * 0.2

/-- Per-class probability `min(base_score * 1.2, 0.95)` for C-class flares. -/
def probC (base : ℚ) : ℚ := min (base * 1.2) 0.95

/-- Per-class probability `min(base_score * 0.6, 0.75)` for M-class flares. -/
def probM (base : ℚ) : ℚ := min (base * 0.6) 0.75

/-- Per-class probability `min(base_score * 0.3, 0.45)` for X-class flares. -/
def probX (base : ℚ) : ℚ := min (base * 0.3) 0.45

/-- One entry of the `predictions` mapping of `predict_flare_probability`. -/
structure ClassPrediction where
  probability : ℚ
  description : String
  severity : String
deriving DecidableEq, Repr

/-- Result dictionary of `predict_flare_probability`; the wall-clock
`timestamp` field is omitted (pure embedding). -/
structure FlarePrediction where
  forecast_period : String
  model_version : String
  confidence : ℚ
  c_class : ClassPrediction
  m_class : ClassPrediction
  x_class : ClassPrediction
  risk_level : String
  recommendations : List String
deriving DecidableEq, Repr

/-- `SolarFlarePredictor.predict_flare_probability`. -/
def predict_flare_probability {α β : Type} (recent_flares : List Flare)
    (solar_wind_data : List α) (xray_flux : List β) : FlarePrediction :=
  let base := base_score recent_flares solar_wind_data xray_flux
  { forecast_period := "24-48 hours"
    model_version := "1.0.0"
    confidence := 0.78
    c_class := ⟨probC base, "Minor flares, little impact", "low"⟩
    m_class := ⟨probM base, "Moderate flares, possible radio blackouts", "moderate"⟩
    x_class := ⟨probX base, "Major flares, significant impacts possible", "high"⟩
    risk_level := _calculate_risk_level base
    recommendations := _generate_recommendations base }

/-! ## Geomagnetic storm scorer (`SolarFlarePredictor.predict_geomagnetic_storm`) -/

/-- The short-circuit dictionary returned when `kp_history` is empty. -/
structure GeomagEmptyResult where
  storm_probability : ℚ
  max_kp_predicted : ℚ
  storm_level : String
deriving DecidableEq, Repr

/-- Result dictionary of `predict_geomagnetic_storm` on a nonempty history;
the wall-clock `timestamp` field is omitted. -/
structure GeomagPrediction where
  current_kp : ℚ
  predicted_max_kp : ℚ
  storm_probability : ℚ
  storm_level : String
  forecast_period : String
  impacts : List String
deriving DecidableEq, Repr

/-- `SolarFlarePredictor.predict_geomagnetic_storm`; the empty-history branch
returns a dictionary with different keys, hence the sum type. -/
def predict_geomagnetic_storm (kp_history : List KpEntry) (cme_incoming : Bool) :
    GeomagEmptyResult ⊕ GeomagPrediction :=
  if kp_history.isEmpty then
    Sum.inl { storm_probability := 0.1, max_kp_predicted := 2, storm_level := "None" }
  else
    let recent_kp := (lastN 5 kp_history).map kpEntryValue
    let avg_kp := listMean recent_kp
    let predicted_kp : ℚ := if cme_incoming then min (avg_kp + 3) 9 else min (avg_kp + 1) 7
    let storm_prob : ℚ := if cme_incoming then 0.85 else if avg_kp > 4 then 0.3 else 0.1
    let storm_level : String :=
      if predicted_kp ≥ 7 then "Severe (G4-G5)"
      else if predicted_kp ≥ 5 then "Moderate (G2-G3)"
      else "Minor (G1) or None"
    let impacts : List String :=
      if predicted_kp ≥ 7 then
        ["Widespread power grid problems possible",
         "Spacecraft operations significantly affected",
         "HF radio blackouts in many areas",
         "GPS navigation errors likely"]
      else if predicted_kp ≥ 5 then
        ["Power systems may experience voltage alarms",
         "Spacecraft may need corrective actions",
         "HF radio propagation affected",
         "GPS accuracy reduced"]
      else
        ["Minimal impact expected",
         "Possible minor fluctuations in power grids",
         "Aurora visible at high latitudes"]
    Sum.inr { current_kp := pyRound 1 avg_kp
              predicted_max_kp := pyRound 1 predicted_kp
              storm_probability := pyRound 2 storm_prob
              storm_level := storm_level
              forecast_period := "24 hours"
              impacts := impacts }

/-- `storm_probability` of either result shape (both dictionaries carry the
key, so `d.get("storm_probability", 0)` reads it in either case). -/
def geomagStormProbability : GeomagEmptyResult ⊕ GeomagPrediction → ℚ
  | Sum.inl r => r.storm_probability
  | Sum.inr p => p.storm_probability

/-- `storm_level` of either result shape. -/
def geomagStormLevel : GeomagEmptyResult ⊕ GeomagPrediction → String
  | Sum.inl r => r.storm_level
  | Sum.inr p => p.storm_level

/-- Predicted maximum Kp of either result shape. -/
def geomagPredictedKp : GeomagEmptyResult ⊕ GeomagPrediction → ℚ
  | Sum.inl r => r.max_kp_predicted
  | Sum.inr p => p.predicted_max_kp

/-! ## CME arrival estimator (`SolarFlarePredictor.predict_cme_arrival`) -/

/-- Pointwise character-shape of the 16-character core `YYYY-MM-DDTHH:MM`
of an ISO-8601 timestamp. -/
def isoShape : List (Char → Bool) :=
  [Char.isDigit, Char.isDigit, Char.isDigit, Char.isDigit, fun c => c = '-',
   Char.isDigit, Char.isDigit, fun c => c = '-',
   Char.isDigit, Char.isDigit, fun c => c = 'T' || c = ' ',
   Char.isDigit, Char.isDigit, fun c => c = ':', Char.isDigit, Char.isDigit]

/-- Numeric value of a digit string. -/
def digitsVal (cs : List Char) : Nat :=
  cs.foldl (fun a c => a * 10 + (c.toNat - 48)) 0

/-- Python's `detection_time.replace('Z', '+00:00')`, on character lists. -/
def replaceZ : List Char → List Char
  | [] => []
  | c :: cs =>
      if c = 'Z' then '+' :: '0' :: '0' :: ':' :: '0' :: '0' :: replaceZ cs
      else c :: replaceZ cs

/-- Model of Python's `datetime.fromisoformat`: succeeds exactly when the
string starts with a well-shaped `YYYY-MM-DDTHH:MM` core, returning a nominal
time in hours (a calendar-free monotone encoding — none of the claims depends
on real calendar arithmetic); `none` models the raised `ValueError`, in
particular on the empty string. -/
def fromisoformat (cs : List Char) : Option ℚ :=
  if 16 ≤ cs.length then
    if (List.zipWith (fun p c => p c) isoShape cs).all id then
      let year := digitsVal (cs.take 4)
      let month := digitsVal ((cs.drop 5).take 2)
      let day := digitsVal ((cs.drop 8).take 2)
      let hh := digitsVal ((cs.drop 11).take 2)
      let mm := digitsVal ((cs.drop 14).take 2)
      some ((((year * 372 + month * 31 + day) * 24 + hh : Nat) : ℚ) + (mm : ℚ) / 60)
    else none
  else none

/-- The successful result dictionary of `predict_cme_arrival`; the estimated
arrival instant is in the nominal hour scale of `fromisoformat`. -/
structure CMEArrival where
  detection_time : String
  cme_speed : ℚ
  estimated_arrival : ℚ
  arrival_window_lo : ℚ
  arrival_window_hi : ℚ
  impact_probability : ℚ
  severity : String
  warnings : List String
deriving DecidableEq, Repr

/-- Outcome of `predict_cme_arrival` when no exception is raised:
the not-Earth-directed sentinel dictionary
(`arrival_time: None, impact_probability: 0`) or an arrival estimate. -/
inductive CMEResult where
  | notEarthDirected : CMEResult
  | arrival : CMEArrival → CMEResult
deriving DecidableEq, Repr

/-- `SolarFlarePredictor.predict_cme_arrival`. The guard
`if not cme_speed or cme_speed < 200` collapses to `cme_speed < 200` on
rationals (0 is falsy and below 200). `Except.error` models the uncaught
`ValueError` raised by `datetime.fromisoformat` on a malformed timestamp. -/
def predict_cme_arrival (cme_speed : ℚ) (detection_time : String) :
    Except String CMEResult :=
  if cme_speed < 200 then Except.ok CMEResult.notEarthDirected
  else
    let travel_time_hours : ℚ := 150000000 / (cme_speed * 3600)
    match fromisoformat (replaceZ detection_time.toList) with
    | none => Except.error "ValueError: invalid isoformat string"
    | some detection =>
      let impact_prob : ℚ := min ((cme_speed / 2000) * 0.8) 0.95
      Except.ok (CMEResult.arrival
        { detection_time := detection_time
          cme_speed := cme_speed
          estimated_arrival := detection + travel_time_hours
          arrival_window_lo := travel_time_hours - 6
          arrival_window_hi := travel_time_hours + 6
          impact_probability := pyRound 2 impact_prob
          severity := if cme_speed ≥ 1000 then "high" else "moderate"
          warnings :=
            if cme_speed ≥ 1000 then
              ["Geomagnetic storm expected",
               "Satellite operations may be affected",
               "Aurora visible at lower latitudes"]
            else
              ["Minor geomagnetic activity possible",
               "Aurora may be visible at high latitudes"] })

/-- The `impact_probability` field of a successful arrival estimate,
`none` on the sentinel or on an exception. -/
def cmeImpactProbability : Except String CMEResult → Option ℚ
  | Except.ok (CMEResult.arrival a) => some a.impact_probability
  | _ => none

/-! ## Radiation storm scorer (`RadiationPredictor.predict_radiation_storm`) -/

/-- The `high_energy_flares` list comprehension: flares whose `classType`
starts with `"X"` or `"M"` (Python `str.startswith`, case-sensitive). -/
def highEnergyFlares (recent_flares : List Flare) : List Flare :=
  recent_flares.filter
    (fun f => strStartsWith f.classType "X" || strStartsWith f.classType "M")

/-- `RadiationPredictor._get_radiation_impacts`. -/
def _get_radiation_impacts (s_scale : String) : List String :=
  if strContains s_scale "S3" || strContains s_scale "S4" then
    ["Radiation hazard to astronauts on EVA",
     "Satellite operations degraded",
     "HF radio blackouts on sunlit side",
     "Navigation system errors",
     "Increased radiation dose to airline passengers"]
  else if strContains s_scale "S1" || strContains s_scale "S2" then
    ["Minor impacts to satellite operations",
     "Small effects on HF radio in polar regions",
     "Elevated radiation levels for astronauts",
     "Minimal impact to aviation"]
  else
    ["Normal background radiation levels",
     "No significant impacts expected"]

/-- `RadiationPredictor._get_affected_regions`. -/
def _get_affected_regions (s_scale : String) : List String :=
  if strContains s_scale "S3" || strContains s_scale "S4" then
    ["Polar regions", "High-latitude areas", "Global HF communications"]
  else if strContains s_scale "S1" || strContains s_scale "S2" then
    ["Polar regions", "High-latitude areas"]
  else
    ["None"]

/-- `RadiationPredictor._get_radiation_recommendations`. -/
def _get_radiation_recommendations (s_scale : String) : List String :=
  if strContains s_scale "S3" || strContains s_scale "S4" then
    ["Postpone spacewalks if possible",
     "Satellite operators: implement mitigation procedures",
     "Airlines: consider re-routing polar flights",
     "Increased monitoring of radiation levels"]
  else if strContains s_scale "S1" || strContains s_scale "S2" then
    ["Monitor radiation levels",
     "Limit EVA duration if possible",
     "Standard satellite protection adequate"]
  else
    ["Normal operations",
     "Standard radiation monitoring"]

/-- Result dictionary of `predict_radiation_storm`; the wall-clock
`timestamp` field is omitted. -/
structure RadiationPrediction where
  forecast_period : String
  radiation_storm_probability : ℚ
  predicted_scale : String
  severity : String
  confidence : ℚ
  impacts : List String
  affected_regions : List String
  recommendations : List String
deriving DecidableEq, Repr

/-- `RadiationPredictor.predict_radiation_storm` (the unused `proton_flux`
default argument is dropped). -/
def predict_radiation_storm (recent_flares : List Flare) : RadiationPrediction :=
  let n := (highEnergyFlares recent_flares).length
  let base_prob : ℚ := min ((n : ℚ) * 0.2) 0.9
  let s_scale : String :=
    if n ≥ 3 then "S3-S4" else if n ≥ 1 then "S1-S2" else "Below S1"
  let severity : String :=
    if n ≥ 3 then "Strong" else if n ≥ 1 then "Moderate" else "Minor"
  let prob : ℚ :=
    if n ≥ 3 then min (base_prob * 1.2) 0.85 else if n ≥ 1 then base_prob else 0.15
  { forecast_period := "24-72 hours"
    radiation_storm_probability := pyRound 2 prob
    predicted_scale := s_scale
    severity := severity
    confidence := 0.72
    impacts := _get_radiation_impacts s_scale
    affected_regions := _get_affected_regions s_scale
    recommendations := _get_radiation_recommendations s_scale }

/-! ## Aggregator (`PredictionService`, `app/services/prediction_service.py`) -/

/-- `PredictionService._risk_to_score`: dictionary lookup with default 0.3. -/
def _risk_to_score (risk_level : String) : ℚ :=
  if risk_level = "HIGH" then 0.85
  else if risk_level = "MODERATE" then 0.6
  else if risk_level = "LOW" then 0.3
  else if risk_level = "MINIMAL" then 0.1
  else 0.3

/-- `PredictionService._get_primary_concerns`: conditional appends in fixed
order, with a fallback entry when nothing was appended. -/
def _get_primary_concerns (flare_pred : FlarePrediction)
    (geomag_pred : GeomagEmptyResult ⊕ GeomagPrediction)
    (rad_pred : RadiationPrediction) : List String :=
  let concerns : List String :=
    (if flare_pred.risk_level = "HIGH" ∨ flare_pred.risk_level = "MODERATE"
      then ["Solar flare activity"] else []) ++
    (if geomagStormProbability geomag_pred > 0.5
      then ["Geomagnetic disturbances"] else []) ++
    (if rad_pred.radiation_storm_probability > 0.5
      then ["Radiation hazards"] else [])
  if concerns.isEmpty then ["No significant concerns"] else concerns

/-- Result of `PredictionService._calculate_overall_risk`. -/
structure OverallRisk where
  risk_level : String
  risk_score : ℚ
  color : String
  message : String
  primary_concerns : List String
deriving DecidableEq, Repr

/-- `PredictionService._calculate_overall_risk`. -/
def _calculate_overall_risk (flare_pred : FlarePrediction)
    (geomag_pred : GeomagEmptyResult ⊕ GeomagPrediction)
    (rad_pred : RadiationPrediction) : OverallRisk :=
  let flare_risk := _risk_to_score flare_pred.risk_level
  let geomag_risk := geomagStormProbability geomag_pred
  let rad_risk := rad_pred.radiation_storm_probability
  let overall_score := flare_risk * 0.4 + geomag_risk * 0.35 + rad_risk * 0.25
  let (level, color, message) :=
    if overall_score ≥ 0.7 then
      ("HIGH", "red", "Significant space weather activity expected")
    else if overall_score ≥ 0.5 then
      ("ELEVATED", "orange", "Moderate space weather activity possible")
    else if overall_score ≥ 0.3 then
      ("MODERATE", "yellow", "Minor space weather activity possible")
    else
      ("LOW", "green", "Quiet space weather conditions expected")
  { risk_level := level
    risk_score := pyRound 2 overall_score
    color := color
    message := message
    primary_concerns := _get_primary_concerns flare_pred geomag_pred rad_pred }

/-- Payload of a successful `get_comprehensive_predictions` response
(`status: "success"` and the echoed timestamp omitted). In the source,
`cme_arrival` stays `None` when there is no fast CME. -/
structure ComprehensivePredictions where
  solar_flares : FlarePrediction
  geomagnetic_storm : GeomagEmptyResult ⊕ GeomagPrediction
  radiation_storm : RadiationPrediction
  cme_arrival : Option CMEResult
  overall_risk_assessment : OverallRisk
deriving DecidableEq, Repr

/-- `cme.get("speed")` presence test followed by a numeric comparison, as in
`has_fast_cme` / `fast_cmes` (a present field is already numeric here, so
Python's truthiness test on it is subsumed by the strict comparison). -/
def cmeSpeedAbove (threshold : ℚ) (cme : CMEEvent) : Bool :=
  match cme.speed with
  | some s => decide (threshold < s)
  | none => false

/-- `PredictionService.get_comprehensive_predictions`. Any exception raised
while computing the CME arrival (there is no try/except on this path)
propagates as `Except.error` and aborts the whole aggregate. -/
def get_comprehensive_predictions {α β : Type} (recent_flares : List Flare)
    (cme_events : List CMEEvent) (solar_wind : List α) (xray_flux : List β)
    (kp_index : List KpEntry) : Except String ComprehensivePredictions :=
  let flare_predictions := predict_flare_probability recent_flares solar_wind xray_flux
  let has_fast_cme := cme_events.any (cmeSpeedAbove 1000)
  let geomag_predictions := predict_geomagnetic_storm kp_index has_fast_cme
  let radiation_predictions := predict_radiation_storm recent_flares
  let cme_arrival : Except String (Option CMEResult) :=
    if cme_events.isEmpty then Except.ok none
    else
      let fast_cmes := cme_events.filter (cmeSpeedAbove 500)
      match fast_cmes.getLast? with
      | none => Except.ok none
      | some latest_cme =>
          (predict_cme_arrival (latest_cme.speed.getD 0) latest_cme.startTime).map some
  match cme_arrival with
  | Except.error e => Except.error e
  | Except.ok ca =>
      Except.ok
        { solar_flares := flare_predictions
          geomagnetic_storm := geomag_predictions
          radiation_storm := radiation_predictions
          cme_arrival := ca
          overall_risk_assessment :=
            _calculate_overall_risk flare_predictions geomag_predictions
              radiation_predictions }

/-! ## Severity classifiers and alert synthesizer (`app/api/routes/alerts.py`) -/

/-- `classify_flare_severity` on the character list of `classType`
(`if not class_type` is the empty test; `class_type[0].upper()` is the head). -/
def classifyFlareChars : List Char → String
  | [] => "unknown"
  | c :: _ =>
    let first_char := c.toUpper
    if first_char = 'X' then "extreme"
    else if first_char = 'M' then "high"
    else if first_char = 'C' then "moderate"
    else "low"

/-- `classify_flare_severity` from `alerts.py`. -/
def classify_flare_severity (class_type : String) : String :=
  classifyFlareChars class_type.toList

/-- `classify_cme_severity` from `alerts.py`. -/
def classify_cme_severity (speed : ℚ) : String :=
  if speed ≥ 2000 then "extreme"
  else if speed ≥ 1000 then "high"
  else if speed ≥ 500 then "moderate"
  else "low"

/-- A DONKI flare record as consumed by the alert route. -/
structure FlareEvent where
  flrID : String
  classType : String
  peakTime : String
  beginTime : String
deriving DecidableEq, Repr

/-- A DONKI geomagnetic-storm record as consumed by the alert route:
`allKpIndex` keeps only each nested record's `kpIndex` value. -/
structure StormEvent where
  gstID : String
  allKpIndex : List ℚ
  startTime : String
deriving DecidableEq, Repr

/-- A DONKI radiation-belt-enhancement record as consumed by the alert route. -/
structure RadiationEvent where
  rbeID : String
  eventTime : String
deriving DecidableEq, Repr

/-- A synthesized alert record. -/
structure Alert where
  id : String
  type : String
  severity : String
  title : String
  description : String
  timestamp : String
  source : String
deriving DecidableEq, Repr

/-- Body of the flare loop of `get_active_alerts`: the severity filter keeps
only "high"/"extreme"; `none` means the record contributes no alert.
(The title's `'Unknown'` default for a missing `classType` is unreachable
through the filter, since a missing class is severity "unknown".) -/
def flareAlert (flare : FlareEvent) : Option Alert :=
  let severity := classify_flare_severity flare.classType
  if severity = "high" ∨ severity = "extreme" then
    some { id := flare.flrID
           type := "solar_flare"
           severity := severity
           title := "Solar Flare " ++ flare.classType ++ " detected"
           description := "Peak time: " ++ flare.peakTime
           timestamp := flare.beginTime
           source := "NASA DONKI" }
  else none

/-- Body of the CME loop of `get_active_alerts`
(`speed = float(cme.get("speed", 0)) if cme.get("speed") else 0`). -/
def cmeAlert (cme : CMEEvent) : Option Alert :=
  let speed := cme.speed.getD 0
  let severity := classify_cme_severity speed
  if severity = "high" ∨ severity = "extreme" then
    some { id := cme.activityID
           type := "cme"
           severity := severity
           title := "Coronal Mass Ejection detected"
           description := "Speed: " ++ toString speed ++ " km/s"
           timestamp := cme.startTime
           source := "NASA DONKI" }
  else none

/-- Body of the storm loop of `get_active_alerts`: Kp read from the first
nested record (0 when absent), ad-hoc tier, then the same severity filter. -/
def stormAlert (storm : StormEvent) : Option Alert :=
  let kp_index : ℚ := match storm.allKpIndex with
    | [] => 0
    | k :: _ => k
  let severity : String :=
    if kp_index ≥ 7 then "high" else if kp_index ≥ 5 then "moderate" else "low"
  if severity = "high" ∨ severity = "extreme" then
    some { id := storm.gstID
           type := "geomagnetic_storm"
           severity := severity
           title := "Geomagnetic Storm (Kp " ++ toString kp_index ++ ")"
           description := "Start time: " ++ storm.startTime
           timestamp := storm.startTime
           source := "NASA DONKI" }
  else none

/-- Body of the radiation loop of `get_active_alerts`: unconditional append
with constant severity "moderate". -/
def radAlert (rad : RadiationEvent) : Alert :=
  { id := rad.rbeID
    type := "radiation"
    severity := "moderate"
    title := "Radiation Belt Enhancement"
    description := "Event time: " ++ rad.eventTime
    timestamp := rad.eventTime
    source := "NASA DONKI" }

/-- The alert list of `get_active_alerts` before sorting: the four loops in
source order. -/
def collectAlerts (flares : List FlareEvent) (cme_events : List CMEEvent)
    (storms : List StormEvent) (radiation : List RadiationEvent) : List Alert :=
  flares.filterMap flareAlert ++ cme_events.filterMap cmeAlert ++
  storms.filterMap stormAlert ++ radiation.map radAlert

/-- The pure core of the `get_active_alerts` route: build the alerts from the
fetched events and sort by timestamp string, most recent first
(`alerts.sort(key=..., reverse=True)` — a stable descending sort). -/
def get_active_alerts (flares : List FlareEvent) (cme_events : List CMEEvent)
    (storms : List StormEvent) (radiation : List RadiationEvent) : List Alert :=
  (collectAlerts flares cme_events storms radiation).mergeSort
    (fun a b => decide (b.timestamp ≤ a.timestamp))

/-! ## Auxiliary lemmas -/

theorem floor_add_half (z : ℤ) : ⌊(z : ℚ) + 1 / 2⌋ = z := by
  rw [Int.floor_eq_iff]
  constructor
  · linarith
  · linarith

theorem pyRound_eq_self (n : Nat) (q : ℚ) (z : ℤ) (hq : q * 10 ^ n = (z : ℚ)) :
    pyRound n q = q := by
  unfold pyRound
  rw [hq, floor_add_half]
  have h10 : (10 : ℚ) ^ n ≠ 0 := by positivity
  field_simp
  linarith [hq]

theorem pyRound_mono (n : Nat) {a b : ℚ} (h : a ≤ b) : pyRound n a ≤ pyRound n b := by
  unfold pyRound
  have h10 : (0 : ℚ) < 10 ^ n := by positivity
  apply (div_le_div_iff_of_pos_right h10).mpr
  exact_mod_cast Int.floor_mono (by nlinarith)

theorem empty_base_score :
    base_score ([] : List Flare) ([] : List ℚ) ([] : List ℚ) = 0.35 := by
  norm_num [base_score, _calculate_activity_score, _analyze_solar_wind, _analyze_xray_flux]

/-! ## Claim theorems -/

/-- C1: for the flare scorer on empty flare, solar-wind and X-ray inputs the
intermediate scores are activity 0.2, wind 0.5, xray 0.5, but the blended base
score is `0.2*0.5 + 0.5*0.3 + 0.5*0.2 = 0.35`, not the claimed 0.37 — the
claim's "base equals exactly 0.37" is false on the code. -/
theorem C1_base_score_counterexample :
    base_score ([] : List Flare) ([] : List ℚ) ([] : List ℚ) = 0.35 ∧
    (0.35 : ℚ) ≠ 0.37 := by
  refine ⟨empty_base_score, by norm_num⟩

/-- C1 (amended): for the flare scorer on empty flare, solar-wind and X-ray
inputs, activity = 0.2, wind = 0.5, xray = 0.5, the blended base score equals
exactly 0.35, and the returned risk_level is "LOW". -/
theorem C1_empty_inputs_flare_scorer :
    _calculate_activity_score [] = 0.2 ∧
    _analyze_solar_wind ([] : List ℚ) = 0.5 ∧
    _analyze_xray_flux ([] : List ℚ) = 0.5 ∧
    base_score ([] : List Flare) ([] : List ℚ) ([] : List ℚ) = 0.35 ∧
    (predict_flare_probability ([] : List Flare) ([] : List ℚ) ([] : List ℚ)).risk_level
      = "LOW" := by
  refine ⟨by norm_num [_calculate_activity_score], by norm_num [_analyze_solar_wind],
    by norm_num [_analyze_xray_flux], empty_base_score, ?_⟩
  simp [predict_flare_probability, _calculate_risk_level, empty_base_score]
  norm_num

/-- C2: on Kp history `[3, 4, 5]` (average 4) without an incoming CME the
scorer predicts max Kp `min(4+1, 7) = 5.0`, which falls in the `≥ 5` tier, so
the storm level is "Moderate (G2-G3)" — the claim's "Minor (G1) or None" is
false on the code. -/
theorem C2_storm_level_counterexample :
    geomagStormLevel
        (predict_geomagnetic_storm [⟨"t1", [3]⟩, ⟨"t2", [4]⟩, ⟨"t3", [5]⟩] false)
      = "Moderate (G2-G3)" ∧
    ("Moderate (G2-G3)" : String) ≠ "Minor (G1) or None" := by
  have havg :
      listMean ((lastN 5 [⟨"t1", [3]⟩, ⟨"t2", [4]⟩, ⟨"t3", [5]⟩]).map kpEntryValue) = 4 := by
    norm_num [listMean, lastN, kpEntryValue]
  constructor
  · simp only [predict_geomagnetic_storm, havg]
    norm_num [geomagStormLevel]
  · decide

/-- C2 (amended): for a Kp history whose last values are 3, 4 and 5 (average
4) and no incoming CME, the geomagnetic scorer returns storm_probability 0.1,
predicted_max_kp 5.0 and storm_level "Moderate (G2-G3)". -/
theorem C2_geomagnetic_scorer_on_3_4_5 :
    predict_geomagnetic_storm [⟨"t1", [3]⟩, ⟨"t2", [4]⟩, ⟨"t3", [5]⟩] false =
      Sum.inr { current_kp := 4
                predicted_max_kp := 5
                storm_probability := 0.1
                storm_level := "Moderate (G2-G3)"
                forecast_period := "24 hours"
                impacts := ["Power systems may experience voltage alarms",
                            "Spacecraft may need corrective actions",
                            "HF radio propagation affected",
                            "GPS accuracy reduced"] } := by
  have havg :
      listMean ((lastN 5 [⟨"t1", [3]⟩, ⟨"t2", [4]⟩, ⟨"t3", [5]⟩]).map kpEntryValue) = 4 := by
    norm_num [listMean, lastN, kpEntryValue]
  simp only [predict_geomagnetic_storm, havg]
  norm_num
  refine ⟨?_, ?_, ?_⟩
  · exact pyRound_eq_self 1 _ 40 (by norm_num)
  · exact pyRound_eq_self 1 _ 50 (by norm_num)
  · exact pyRound_eq_self 2 _ 10 (by norm_num)

/-- C3: for a CME of speed exactly 2000 km/s with a parseable detection time
the estimator returns `impact_probability = min((2000/2000)*0.8, 0.95) = 0.8`,
strictly below the 0.95 cap — the claim that the probability is clamped at
0.95 is false on the code. -/
theorem C3_impact_probability_counterexample :
    cmeImpactProbability (predict_cme_arrival 2000 "2024-01-01T00:00:00Z") = some 0.8 ∧
    (0.8 : ℚ) ≠ 0.95 := by
  constructor
  · obtain ⟨v, hv⟩ := Option.isSome_iff_exists.mp
      (show (fromisoformat (replaceZ "2024-01-01T00:00:00Z".toList)).isSome = true by decide)
    simp only [predict_cme_arrival, hv]
    rw [if_neg (by norm_num)]
    simp only [cmeImpactProbability]
    norm_num
    exact pyRound_eq_self 2 _ 80 (by norm_num)
  · norm_num

/-- C3 (amended): for a CME with speed exactly 2000 km/s and a parseable
detection time, the CME arrival estimator returns impact_probability 0.8
(`min((2000/2000)*0.8, 0.95)`; the 0.95 clamp is not reached at this speed). -/
theorem C3_impact_probability_at_2000 (t : String)
    (h : (fromisoformat (replaceZ t.toList)).isSome = true) :
    cmeImpactProbability (predict_cme_arrival 2000 t) = some 0.8 := by
  obtain ⟨v, hv⟩ := Option.isSome_iff_exists.mp h
  simp only [predict_cme_arrival, hv]
  rw [if_neg (by norm_num)]
  simp only [cmeImpactProbability]
  norm_num
  exact pyRound_eq_self 2 _ 80 (by norm_num)

theorem C3_impact_probability_at_2000_witness :
    (fromisoformat (replaceZ "2024-06-01T12:30:00Z".toList)).isSome = true ∧
    cmeImpactProbability (predict_cme_arrival 2000 "2024-06-01T12:30:00Z") = some 0.8 :=
  ⟨by decide, C3_impact_probability_at_2000 "2024-06-01T12:30:00Z" (by decide)⟩

/-- C4: a fast CME record (speed > 500) whose startTime is empty makes
`datetime.fromisoformat` raise inside `predict_cme_arrival`; there is no
try/except on this path, so `get_comprehensive_predictions` aborts with the
exception instead of returning a result — the code contradicts the spec's
per-record error-containment requirement. -/
theorem C4_malformed_cme_aborts_comprehensive :
    (get_comprehensive_predictions ([] : List Flare) [⟨"a1", some 600, ""⟩]
        ([] : List ℚ) ([] : List ℚ) []).isOk = false := by
  have hfilter :
      List.filter (cmeSpeedAbove 500) [(⟨"a1", some 600, ""⟩ : CMEEvent)] =
        [⟨"a1", some 600, ""⟩] := by
    have hc : cmeSpeedAbove 500 (⟨"a1", some 600, ""⟩ : CMEEvent) = true := by
      simp [cmeSpeedAbove]
      norm_num
    simp [List.filter, hc]
  have harr : predict_cme_arrival (600 : ℚ) "" =
      Except.error "ValueError: invalid isoformat string" := by
    simp only [predict_cme_arrival]
    rw [if_neg (by norm_num)]
    simp [fromisoformat, replaceZ]
  simp only [get_comprehensive_predictions, hfilter]
  simp [harr, Except.map, Except.isOk, Except.toBool]

/-- C5: for every nonnegative base score, the flare scorer's per-class
probabilities are monotonically non-increasing by class severity,
C ≥ M ≥ X, and each is bounded by its cap: C ≤ 0.95, M ≤ 0.75, X ≤ 0.45. -/
theorem C5_flare_class_probabilities_monotone_capped (base : ℚ) (h : 0 ≤ base) :
    probX base ≤ probM base ∧ probM base ≤ probC base ∧
    probC base ≤ 0.95 ∧ probM base ≤ 0.75 ∧ probX base ≤ 0.45 := by
  refine ⟨min_le_min (by nlinarith) (by norm_num),
    min_le_min (by nlinarith) (by norm_num),
    min_le_right _ _, min_le_right _ _, min_le_right _ _⟩

theorem C5_flare_class_probabilities_monotone_capped_witness :
    (0 : ℚ) ≤ 1 / 2 ∧
    (probX (1 / 2) ≤ probM (1 / 2) ∧ probM (1 / 2) ≤ probC (1 / 2) ∧
      probC (1 / 2) ≤ 0.95 ∧ probM (1 / 2) ≤ 0.75 ∧ probX (1 / 2) ≤ 0.45) :=
  ⟨by norm_num, C5_flare_class_probabilities_monotone_capped (1 / 2) (by norm_num)⟩

/-- C6: whenever no flare class starts with an uppercase X or M the radiation
scorer returns probability exactly 0.15, regardless of the remaining flare
data; and with three or more such flares the returned probability never
exceeds 0.85. -/
theorem C6_radiation_probability_pinned_and_capped (recent_flares : List Flare) :
    ((highEnergyFlares recent_flares).length = 0 →
      (predict_radiation_storm recent_flares).radiation_storm_probability = 0.15) ∧
    (3 ≤ (highEnergyFlares recent_flares).length →
      (predict_radiation_storm recent_flares).radiation_storm_probability ≤ 0.85) := by
  constructor
  · intro h
    simp only [predict_radiation_storm, h]
    norm_num
    exact pyRound_eq_self 2 _ 15 (by norm_num)
  · intro h
    simp only [predict_radiation_storm]
    rw [if_pos (by omega : (highEnergyFlares recent_flares).length ≥ 3)]
    refine le_trans (pyRound_mono 2 (min_le_right _ _)) ?_
    rw [pyRound_eq_self 2 _ 85 (by norm_num)]

theorem C6_radiation_probability_pinned_and_capped_witness :
    (predict_radiation_storm [⟨"B1.0"⟩]).radiation_storm_probability = 0.15 ∧
    (predict_radiation_storm [⟨"X1.0"⟩, ⟨"M2.0"⟩, ⟨"X3.0"⟩, ⟨"M1.0"⟩]).radiation_storm_probability
      ≤ 0.85 :=
  ⟨(C6_radiation_probability_pinned_and_capped [⟨"B1.0"⟩]).1 (by decide),
   (C6_radiation_probability_pinned_and_capped
      [⟨"X1.0"⟩, ⟨"M2.0"⟩, ⟨"X3.0"⟩, ⟨"M1.0"⟩]).2 (by decide)⟩

/-- C7: for every combination of predictions the aggregator's concern list is
the fixed-order concatenation [flare?, geomag?, radiation?], each entry
present iff its condition holds, and it equals the single fallback entry
"No significant concerns" iff all three conditions are false; in particular
flare tier MINIMAL with geomagnetic and radiation probabilities 0.1 yields
only the fallback concern. -/
theorem C7_primary_concerns_order_and_fallback (fp : FlarePrediction)
    (gp : GeomagEmptyResult ⊕ GeomagPrediction) (rp : RadiationPrediction) :
    (_get_primary_concerns fp gp rp =
      if ¬(fp.risk_level = "HIGH" ∨ fp.risk_level = "MODERATE") ∧
         ¬(geomagStormProbability gp > 0.5) ∧ ¬(rp.radiation_storm_probability > 0.5)
      then ["No significant concerns"]
      else (if fp.risk_level = "HIGH" ∨ fp.risk_level = "MODERATE"
              then ["Solar flare activity"] else []) ++
           (if geomagStormProbability gp > 0.5 then ["Geomagnetic disturbances"] else []) ++
           (if rp.radiation_storm_probability > 0.5 then ["Radiation hazards"] else [])) ∧
    (_get_primary_concerns fp gp rp = ["No significant concerns"] ↔
      ¬(fp.risk_level = "HIGH" ∨ fp.risk_level = "MODERATE") ∧
      ¬(geomagStormProbability gp > 0.5) ∧ ¬(rp.radiation_storm_probability > 0.5)) ∧
    _get_primary_concerns
      { forecast_period := "24-48 hours", model_version := "1.0.0", confidence := 0.78,
        c_class := ⟨0.2, "d", "low"⟩, m_class := ⟨0.1, "d", "moderate"⟩,
        x_class := ⟨0.05, "d", "high"⟩, risk_level := "MINIMAL", recommendations := [] }
      (Sum.inl ⟨0.1, 2, "None"⟩)
      { forecast_period := "24-72 hours", radiation_storm_probability := 0.1,
        predicted_scale := "Below S1", severity := "Minor", confidence := 0.72,
        impacts := [], affected_regions := [], recommendations := [] }
      = ["No significant concerns"] := by
  have hc :
      _get_primary_concerns
        { forecast_period := "24-48 hours", model_version := "1.0.0", confidence := 0.78,
          c_class := ⟨0.2, "d", "low"⟩, m_class := ⟨0.1, "d", "moderate"⟩,
          x_class := ⟨0.05, "d", "high"⟩, risk_level := "MINIMAL", recommendations := [] }
        (Sum.inl ⟨0.1, 2, "None"⟩)
        { forecast_period := "24-72 hours", radiation_storm_probability := 0.1,
          predicted_scale := "Below S1", severity := "Minor", confidence := 0.72,
          impacts := [], affected_regions := [], recommendations := [] }
        = ["No significant concerns"] := by
    simp [_get_primary_concerns, geomagStormProbability]
    norm_num
  refine ⟨?_, ?_, hc⟩ <;>
    by_cases h1 : fp.risk_level = "HIGH" ∨ fp.risk_level = "MODERATE" <;>
      by_cases h2 : geomagStormProbability gp > 0.5 <;>
        by_cases h3 : rp.radiation_storm_probability > 0.5 <;>
          simp [_get_primary_concerns, h1, h2, h3]

/-- C8: `classify_flare_severity` is total over strings, depends only on the
first character compared case-insensitively (X → extreme, M → high,
C → moderate, any other first character → low), and the empty input yields
the sentinel "unknown", which is distinct from "low". -/
theorem C8_classify_flare_severity_first_char :
    (∀ s t : String, s.toList.head?.map Char.toUpper = t.toList.head?.map Char.toUpper →
        classify_flare_severity s = classify_flare_severity t) ∧
    (∀ (s : String) (c : Char), s.toList.head? = some c → c.toUpper = 'X' →
        classify_flare_severity s = "extreme") ∧
    (∀ (s : String) (c : Char), s.toList.head? = some c → c.toUpper = 'M' →
        classify_flare_severity s = "high") ∧
    (∀ (s : String) (c : Char), s.toList.head? = some c → c.toUpper = 'C' →
        classify_flare_severity s = "moderate") ∧
    (∀ (s : String) (c : Char), s.toList.head? = some c →
        c.toUpper ≠ 'X' → c.toUpper ≠ 'M' → c.toUpper ≠ 'C' →
        classify_flare_severity s = "low") ∧
    classify_flare_severity "" = "unknown" ∧ ("unknown" : String) ≠ "low" := by
  refine ⟨?_, ?_, ?_, ?_, ?_, by decide, by decide⟩
  · intro s t hst
    unfold classify_flare_severity
    cases hs : s.toList with
    | nil =>
      cases ht : t.toList with
      | nil => rfl
      | cons d ds => rw [hs, ht] at hst; simp at hst
    | cons c cs =>
      cases ht : t.toList with
      | nil => rw [hs, ht] at hst; simp at hst
      | cons d ds =>
        rw [hs, ht] at hst
        simp at hst
        simp [classifyFlareChars, hst]
  · intro s c hc hx
    unfold classify_flare_severity
    cases hs : s.toList with
    | nil => rw [hs] at hc; simp at hc
    | cons a as =>
      rw [hs] at hc
      simp at hc
      subst hc
      simp [classifyFlareChars, hx]
  · intro s c hc hm
    unfold classify_flare_severity
    cases hs : s.toList with
    | nil => rw [hs] at hc; simp at hc
    | cons a as =>
      rw [hs] at hc
      simp at hc
      subst hc
      simp [classifyFlareChars, hm]
  · intro s c hc hcc
    unfold classify_flare_severity
    cases hs : s.toList with
    | nil => rw [hs] at hc; simp at hc
    | cons a as =>
      rw [hs] at hc
      simp at hc
      subst hc
      simp [classifyFlareChars, hcc]
  · intro s c hc hx hm hcc
    unfold classify_flare_severity
    cases hs : s.toList with
    | nil => rw [hs] at hc; simp at hc
    | cons a as =>
      rw [hs] at hc
      simp at hc
      subst hc
      simp [classifyFlareChars, hx, hm, hcc]

theorem C8_classify_flare_severity_first_char_witness :
    classify_flare_severity "x2.3" = classify_flare_severity "X9.1" ∧
    classify_flare_severity "X1.0" = "extreme" ∧
    classify_flare_severity "m5.0" = "high" ∧
    classify_flare_severity "c3.0" = "moderate" ∧
    classify_flare_severity "B7.0" = "low" :=
  ⟨C8_classify_flare_severity_first_char.1 "x2.3" "X9.1" (by decide),
   C8_classify_flare_severity_first_char.2.1 "X1.0" 'X' (by decide) (by decide),
   C8_classify_flare_severity_first_char.2.2.1 "m5.0" 'm' (by decide) (by decide),
   C8_classify_flare_severity_first_char.2.2.2.1 "c3.0" 'c' (by decide) (by decide),
   C8_classify_flare_severity_first_char.2.2.2.2.1 "B7.0" 'B' (by decide) (by decide)
     (by decide) (by decide)⟩

/-- C9: in the alert synthesizer every radiation event is unconditionally
included in the output with severity "moderate", while a flare event with
classType "C1.0" (severity "moderate") is always excluded by the
high/extreme filter. -/
theorem C9_alert_synthesizer_radiation_in_C1_flare_out (flares : List FlareEvent)
    (cmes : List CMEEvent) (storms : List StormEvent)
    (radiation : List RadiationEvent) :
    (∀ r ∈ radiation, radAlert r ∈ get_active_alerts flares cmes storms radiation ∧
        (radAlert r).severity = "moderate") ∧
    (∀ f ∈ flares, f.classType = "C1.0" → flareAlert f = none) := by
  constructor
  · intro r hr
    refine ⟨?_, rfl⟩
    unfold get_active_alerts
    rw [List.mem_mergeSort]
    unfold collectAlerts
    simp only [List.mem_append]
    exact Or.inr (List.mem_map.mpr ⟨r, hr, rfl⟩)
  · intro f hf hclass
    have hm : classify_flare_severity f.classType = "moderate" := by rw [hclass]; decide
    simp only [flareAlert, hm]
    rw [if_neg (by decide)]

theorem C9_alert_synthesizer_radiation_in_C1_flare_out_witness :
    (radAlert ⟨"r1", "2024-05-01T00:00Z"⟩ ∈
        get_active_alerts [⟨"f1", "C1.0", "p", "b"⟩] [] [] [⟨"r1", "2024-05-01T00:00Z"⟩] ∧
      (radAlert ⟨"r1", "2024-05-01T00:00Z"⟩).severity = "moderate") ∧
    flareAlert ⟨"f1", "C1.0", "p", "b"⟩ = none :=
  ⟨(C9_alert_synthesizer_radiation_in_C1_flare_out [⟨"f1", "C1.0", "p", "b"⟩] [] []
      [⟨"r1", "2024-05-01T00:00Z"⟩]).1 ⟨"r1", "2024-05-01T00:00Z"⟩ (by decide),
   (C9_alert_synthesizer_radiation_in_C1_flare_out [⟨"f1", "C1.0", "p", "b"⟩] [] []
      [⟨"r1", "2024-05-01T00:00Z"⟩]).2 ⟨"f1", "C1.0", "p", "b"⟩ (by decide) rfl⟩

/-- C10: the radiation scorer's high-energy count is case-sensitive — when no
flare class starts with an uppercase "X" or "M" the n = 0 branch is taken
(probability 0.15, scale "Below S1"), even for lowercase classes like "x1.0"
and "m5.2", which the flare scorer's activity tally does count (it uppercases
the first character): on `["x1.0", "m5.2"]` it counts one X and one M, giving
activity score 0.35 rather than the no-flare floor. -/
theorem C10_radiation_count_case_sensitive (flares : List Flare)
    (h : ∀ f ∈ flares, strStartsWith f.classType "X" = false ∧
        strStartsWith f.classType "M" = false) :
    (highEnergyFlares flares).length = 0 ∧
    (predict_radiation_storm flares).radiation_storm_probability = 0.15 ∧
    (predict_radiation_storm flares).predicted_scale = "Below S1" ∧
    flareCount [⟨"x1.0"⟩, ⟨"m5.2"⟩] 'X' = 1 ∧
    flareCount [⟨"x1.0"⟩, ⟨"m5.2"⟩] 'M' = 1 ∧
    _calculate_activity_score [⟨"x1.0"⟩, ⟨"m5.2"⟩] = 0.35 := by
  have hlen : (highEnergyFlares flares).length = 0 := by
    unfold highEnergyFlares
    rw [List.length_eq_zero, List.filter_eq_nil_iff]
    intro f hf
    simp [(h f hf).1, (h f hf).2]
  refine ⟨hlen, ?_, ?_, by decide, by decide, ?_⟩
  · simp only [predict_radiation_storm, hlen]
    norm_num
    exact pyRound_eq_self 2 _ 15 (by norm_num)
  · simp only [predict_radiation_storm, hlen]
    norm_num
  · have hx : flareCount [⟨"x1.0"⟩, ⟨"m5.2"⟩] 'X' = 1 := by decide
    have hm : flareCount [⟨"x1.0"⟩, ⟨"m5.2"⟩] 'M' = 1 := by decide
    have hc : flareCount [⟨"x1.0"⟩, ⟨"m5.2"⟩] 'C' = 0 := by decide
    simp only [_calculate_activity_score, hx, hm, hc]
    norm_num

theorem C10_radiation_count_case_sensitive_witness :
    (predict_radiation_storm [⟨"x1.0"⟩, ⟨"m5.2"⟩]).radiation_storm_probability = 0.15 ∧
    (predict_radiation_storm [⟨"x1.0"⟩, ⟨"m5.2"⟩]).predicted_scale = "Below S1" :=
  ⟨(C10_radiation_count_case_sensitive [⟨"x1.0"⟩, ⟨"m5.2"⟩] (by decide)).2.1,
   (C10_radiation_count_case_sensitive [⟨"x1.0"⟩, ⟨"m5.2"⟩] (by decide)).2.2.1⟩

end AstroPulse
